import Mathlib

/-!
Verification of the Streaming Chat Gateway (src/src/routes/chat.routes.ts and the
authenticate preHandler). The two entry points — POST /api/chat (SSE push stream)
and GET /api/chat/stream (WebSocket) — are embedded as trace-producing functions:
each handler is a function from its inputs (decoded user, request body, upstream
generator outcome, peer state) to the ordered list of observable actions it
performs (JSON replies, header commits, generator acquisition, iterator pulls,
wire writes). The upstream generator (llmService.chat with streaming) is treated
as an opaque parameter: a `GenOutcome` lists the chunk contents it yields in
production order and whether it completes or raises, matching the spec's external
collaborator boundary.
-/

namespace Gateway

/-- Role of one conversation message. -/
inductive Role
  | user
  | assistant
  | system
deriving DecidableEq, Repr

/-- One conversation message { role, content }. -/
structure ChatMsg where
  role : Role
  content : String
deriving DecidableEq, Repr

/-- Decoded JWT payload as the routes use it: fastify.jwt.verify yields
{ userId, email }. An absent or otherwise falsy userId field is modelled as the
empty string, which is exactly what the handlers' truthiness checks reject. -/
structure JwtPayload where
  userId : String
  email : String
deriving DecidableEq, Repr

/-- POST /api/chat request body before validation. Both fields are optional in
the inbound JSON; `none` models an absent or null field. -/
structure ChatBody where
  messages : Option (List ChatMsg)
  stream : Option Bool
deriving DecidableEq, Repr

/-- Outcome of consuming the upstream token stream returned by
llmService.chat(userId, messages, true): the chunk contents in production order —
each entry is chunk.choices[0]?.delta?.content with `|| ''` applied, so a chunk
with no delta content appears as the empty string — and whether the iteration
completed normally or raised after those chunks. `authz` records whether a raise
was an AuthorizationError (chat.routes.ts line 106). -/
inductive GenOutcome
  | ok (frags : List String)
  | fail (frags : List String) (msg : String) (authz : Bool)
deriving DecidableEq, Repr

/-- The fragment sequence an outcome yields before completing or raising. -/
def fragsOf : GenOutcome → List String
  | .ok fs => fs
  | .fail fs _ _ => fs

/-- SSE wire events written with reply.raw.write: a content event
(data: with a content field), an in-band error event (data: with an error
field), or the DONE sentinel. -/
inductive SseEvent
  | content (s : String)
  | errorEvent (msg : String)
  | done
deriving DecidableEq, Repr

/-- Observable actions of the POST /api/chat handler, in program order.
`jsonReply status ok msg` models the out-of-band response helpers
(unauthorizedResponse / errorResponse / successResponse, i.e.
reply.code(status).send of a JSON body); `openHead` is reply.raw.writeHead;
`acquireGen` is the call llmService.chat(userId, messages, stream); `pull` is
one await on the async iterator; `writeEvent` is reply.raw.write of one SSE
event; `endStream` is reply.raw.end(). -/
inductive SseAction
  | jsonReply (status : Nat) (ok : Bool) (msg : String)
  | openHead (status : Nat)
  | acquireGen (userId : String) (messages : List ChatMsg) (stream : Bool)
  | pull
  | writeEvent (e : SseEvent)
  | endStream
deriving DecidableEq, Repr

/-- Modelled from the spec: validate(chatRequestSchema, body). The Zod schema
chatRequestSchema lives in src/middleware/validation.middleware, which is not
among the sources; per spec section 4.3 and Scenario C, validation raises a
ValidationError on a malformed shape or an empty message list, and on success
the route applies the line-38 default `stream = false`. -/
def validateChatRequest (body : ChatBody) : Except String (List ChatMsg × Bool) :=
  match body.messages with
  | none => .error "messages: Required"
  | some [] => .error "messages: empty"
  | some msgs => .ok (msgs, body.stream.getD false)

/-- Modelled from the spec: llmService.chat with streaming disabled
(src/services/llm.service is not among the sources). Per spec section 4.3,
non-streaming mode fully drains the generator and concatenates all fragment
text into one response string. -/
def nonStreamText (frags : List String) : String := String.join frags

/-- The SSE relay loop, chat.routes.ts lines 63-68:
for await (chunk of streamResponse) pulls once per iteration, extracts
content (with `|| ''`), and writes a content event only when the content is
non-empty (JS truthiness: only the empty string is falsy). The loop body never
reads the connection state. -/
def relayLoopActs : List String → List SseAction
  | [] => []
  | c :: rest =>
      if c = "" then SseAction.pull :: relayLoopActs rest
      else SseAction.pull :: SseAction.writeEvent (SseEvent.content c) :: relayLoopActs rest

/-- The POST /api/chat handler body, chat.routes.ts lines 27-110, as its trace of
actions. `user?` is request.user after the authenticate preHandler;
request.user?.userId is modelled as "" when the user or the field is absent, and
line 30's truthiness check rejects exactly that. `peerGone i` says whether the
client disconnected before the i-th iterator pull; the handler never reads the
connection state, so the argument is unused — it is explicit so that properties
about disconnection can be stated about this definition.
Branches, in source order: missing userId gives unauthorizedResponse (401);
a ZodError from validate is caught at lines 87-95 with headersSent still false,
giving errorResponse 400 (the headersSent branch of that catch is unreachable
because validation runs before writeHead); with stream truthy, writeHead 200
commits (line 50), the generator is acquired (line 60) and relayed, then either
the DONE sentinel (line 70) or — via the catch at lines 98-102 with headersSent
true — one in-band error event, then reply.raw.end(); with stream falsy, the
generator result is returned as one successResponse, and a raise is answered
out-of-band with 401 for an AuthorizationError and 500 otherwise (line 106). -/
def sseHandlerTrace (peerGone : Nat → Bool) (user? : Option JwtPayload)
    (body : ChatBody) (gen : GenOutcome) : List SseAction :=
  let userId := (user?.map JwtPayload.userId).getD ""
  if userId = "" then
    [SseAction.jsonReply 401 false "unauthorized"]
  else
    match validateChatRequest body with
    | .error m => [SseAction.jsonReply 400 false ("Validation error: " ++ m)]
    | .ok (messages, stream) =>
        if stream then
          SseAction.openHead 200 ::
          SseAction.acquireGen userId messages true ::
          (match gen with
           | .ok frags =>
               relayLoopActs frags ++
                 [SseAction.pull, SseAction.writeEvent SseEvent.done, SseAction.endStream]
           | .fail frags msg _ =>
               relayLoopActs frags ++
                 [SseAction.pull, SseAction.writeEvent (SseEvent.errorEvent msg),
                  SseAction.endStream])
        else
          SseAction.acquireGen userId messages false ::
          (match gen with
           | .ok frags => [SseAction.jsonReply 200 true (nonStreamText frags)]
           | .fail _ msg authz =>
               [SseAction.jsonReply (if authz then 401 else 500) false msg])

/-- The authenticate preHandler (middleware, lines 10-16): request.jwtVerify()
runs the app's registered JWT verifier on the credential extracted from the
Authorization header and replies 401 on failure. The verifier itself
(the single fastify.jwt instance) is the `verify` parameter. -/
def authenticatePre (verify : String → Option JwtPayload) (cred? : Option String) :
    Option JwtPayload :=
  cred?.bind verify

/-- The full POST /api/chat pipeline: authenticate preHandler, then the handler
with request.user set to the decoded payload. -/
def sseEntry (verify : String → Option JwtPayload) (cred? : Option String)
    (peerGone : Nat → Bool) (body : ChatBody) (gen : GenOutcome) : List SseAction :=
  match authenticatePre verify cred? with
  | none => [SseAction.jsonReply 401 false "Invalid or expired token"]
  | some p => sseHandlerTrace peerGone (some p) body gen

/-- Outbound WebSocket frames, chat.routes.ts lines 150-181: a chunk frame,
the done frame, or an error frame. -/
inductive WsOut
  | chunk (s : String)
  | doneMsg
  | errMsg (msg : String)
deriving DecidableEq, Repr

/-- Observable actions of the WebSocket endpoint: closing the connection with a
code and reason, or sending one frame. -/
inductive WsAction
  | closeConn (code : Nat) (reason : String)
  | sendFrame (f : WsOut)
deriving DecidableEq, Repr

/-- One inbound WebSocket message: either JSON.parse throws (with the given
error message), or it parses and its messages field is absent or otherwise
falsy (`parsed none`) or present (`parsed (some ms)`). NB: an empty array is a
truthy JS value, so an empty message list is `parsed (some [])`, which the
line-149 check `if (!messages)` does NOT reject. -/
inductive WsInbound
  | malformed (errText : String)
  | parsed (messages : Option (List ChatMsg))
deriving DecidableEq, Repr

/-- Result of handling one inbound WebSocket message: the invocation of
llmService.chat, if any, and the frames sent. -/
structure WsMessageResult where
  genCall : Option (String × List ChatMsg)
  sent : List WsOut
deriving DecidableEq, Repr

/-- The per-message WebSocket handler, chat.routes.ts lines 144-183: parse the
message (a parse failure is caught at 176-182 and answered with one error
frame); reject a falsy messages field with one error frame; otherwise call
llmService.chat(userId, messages, true) with the userId captured at
establishment — never anything from the client message — relay each non-empty
chunk content as a chunk frame, then send the done frame; a raise from the
stream is caught and answered with one error frame after the chunks already
sent. -/
def wsHandleMessage (userId : String) (inbound : WsInbound) (gen : GenOutcome) :
    WsMessageResult :=
  match inbound with
  | .malformed m => { genCall := none, sent := [WsOut.errMsg m] }
  | .parsed none => { genCall := none, sent := [WsOut.errMsg "messages are required"] }
  | .parsed (some msgs) =>
      match gen with
      | .ok frags =>
          { genCall := some (userId, msgs)
            sent := (frags.filter (fun s => s ≠ "")).map WsOut.chunk ++ [WsOut.doneMsg] }
      | .fail frags m _ =>
          { genCall := some (userId, msgs)
            sent := (frags.filter (fun s => s ≠ "")).map WsOut.chunk ++ [WsOut.errMsg m] }

/-- Result of WebSocket connection establishment. -/
inductive WsEstablish
  | rejected (code : Nat) (reason : String)
  | accepted (userId : String)
deriving DecidableEq, Repr

/-- WebSocket establishment, chat.routes.ts lines 122-142: the token comes from
the query string; a missing token closes with 1008, a token the verifier
rejects closes with 1008, a payload with a falsy userId closes with 1008
(each close is followed by return, so no message handler is installed);
otherwise the verified userId is captured for the connection. -/
def wsEstablishConn (verify : String → Option JwtPayload) (token? : Option String) :
    WsEstablish :=
  match token? with
  | none => .rejected 1008 "Missing authentication token"
  | some tok =>
      match verify tok with
      | none => .rejected 1008 "Invalid or expired token"
      | some p =>
          if p.userId = "" then .rejected 1008 "Invalid token payload"
          else .accepted p.userId

/-- One WebSocket connection handling one inbound message: establishment, then
the message handler when accepted. Returns the action list and the generator
invocation, if any. -/
def wsConnection (verify : String → Option JwtPayload) (token? : Option String)
    (inbound : WsInbound) (gen : GenOutcome) :
    List WsAction × Option (String × List ChatMsg) :=
  match wsEstablishConn verify token? with
  | .rejected code reason => ([WsAction.closeConn code reason], none)
  | .accepted userId =>
      let r := wsHandleMessage userId inbound gen
      (r.sent.map WsAction.sendFrame, r.genCall)

/-- Whether the POST entry point's authentication gate passes this credential:
the authenticate preHandler succeeds and the handler's own userId truthiness
check (lines 29-33) passes. -/
def sseAuthAccepts (verify : String → Option JwtPayload) (cred : String) : Bool :=
  match authenticatePre verify (some cred) with
  | none => false
  | some p => decide (p.userId ≠ "")

/-- Whether WebSocket establishment accepts this credential when it arrives as
the query-string token. -/
def wsAuthAccepts (verify : String → Option JwtPayload) (cred : String) : Bool :=
  match wsEstablishConn verify (some cred) with
  | .rejected _ _ => false
  | .accepted _ => true

/-- Number of header commits (reply.raw.writeHead) in a trace. -/
def countOpens : List SseAction → Nat
  | [] => 0
  | SseAction.openHead _ :: t => countOpens t + 1
  | _ :: t => countOpens t

/-- Number of iterator pulls in a trace. -/
def countPulls : List SseAction → Nat
  | [] => 0
  | SseAction.pull :: t => countPulls t + 1
  | _ :: t => countPulls t

/-- Number of content events written in a trace. -/
def countContentSends : List SseAction → Nat
  | [] => 0
  | SseAction.writeEvent (SseEvent.content _) :: t => countContentSends t + 1
  | _ :: t => countContentSends t

/-- Number of in-band error events written in a trace. -/
def countErrorEvents : List SseAction → Nat
  | [] => 0
  | SseAction.writeEvent (SseEvent.errorEvent _) :: t => countErrorEvents t + 1
  | _ :: t => countErrorEvents t

/-- Number of out-of-band JSON replies in a trace. -/
def countJsonReplies : List SseAction → Nat
  | [] => 0
  | SseAction.jsonReply _ _ _ :: t => countJsonReplies t + 1
  | _ :: t => countJsonReplies t

/-- Number of terminal events (DONE sentinel or in-band error event) in a trace. -/
def countTerminalSse : List SseAction → Nat
  | [] => 0
  | SseAction.writeEvent SseEvent.done :: t => countTerminalSse t + 1
  | SseAction.writeEvent (SseEvent.errorEvent _) :: t => countTerminalSse t + 1
  | _ :: t => countTerminalSse t

/-- The content payloads of a trace, in order. -/
def contentsOf : List SseAction → List String
  | [] => []
  | SseAction.writeEvent (SseEvent.content s) :: t => s :: contentsOf t
  | _ :: t => contentsOf t

/-- The chunk payloads of a WebSocket frame list, in order. -/
def chunksOf : List WsOut → List String
  | [] => []
  | WsOut.chunk s :: t => s :: chunksOf t
  | _ :: t => chunksOf t

/-- Number of terminal frames (done frame or error frame) in a WebSocket frame
list. -/
def countTerminalWs : List WsOut → Nat
  | [] => 0
  | WsOut.doneMsg :: t => countTerminalWs t + 1
  | WsOut.errMsg _ :: t => countTerminalWs t + 1
  | _ :: t => countTerminalWs t

/-! Helper lemmas about the relay loop and the trace counters. -/

theorem contentsOf_append (l₁ l₂ : List SseAction) :
    contentsOf (l₁ ++ l₂) = contentsOf l₁ ++ contentsOf l₂ := by
  induction l₁ with
  | nil => rfl
  | cons a t ih =>
      cases a with
      | writeEvent e => cases e <;> simp [contentsOf, ih]
      | _ => simp [contentsOf, ih]

theorem countOpens_append (l₁ l₂ : List SseAction) :
    countOpens (l₁ ++ l₂) = countOpens l₁ + countOpens l₂ := by
  induction l₁ with
  | nil => simp [countOpens]
  | cons a t ih =>
      cases a <;> simp [countOpens, ih] <;> omega

theorem countPulls_append (l₁ l₂ : List SseAction) :
    countPulls (l₁ ++ l₂) = countPulls l₁ + countPulls l₂ := by
  induction l₁ with
  | nil => simp [countPulls]
  | cons a t ih =>
      cases a <;> simp [countPulls, ih] <;> omega

theorem countContentSends_append (l₁ l₂ : List SseAction) :
    countContentSends (l₁ ++ l₂) = countContentSends l₁ + countContentSends l₂ := by
  induction l₁ with
  | nil => simp [countContentSends]
  | cons a t ih =>
      cases a with
      | writeEvent e => cases e <;> simp [countContentSends, ih] <;> omega
      | _ => simp [countContentSends, ih]

theorem countErrorEvents_append (l₁ l₂ : List SseAction) :
    countErrorEvents (l₁ ++ l₂) = countErrorEvents l₁ + countErrorEvents l₂ := by
  induction l₁ with
  | nil => simp [countErrorEvents]
  | cons a t ih =>
      cases a with
      | writeEvent e => cases e <;> simp [countErrorEvents, ih] <;> omega
      | _ => simp [countErrorEvents, ih]

theorem countJsonReplies_append (l₁ l₂ : List SseAction) :
    countJsonReplies (l₁ ++ l₂) = countJsonReplies l₁ + countJsonReplies l₂ := by
  induction l₁ with
  | nil => simp [countJsonReplies]
  | cons a t ih =>
      cases a <;> simp [countJsonReplies, ih] <;> omega

theorem countTerminalSse_append (l₁ l₂ : List SseAction) :
    countTerminalSse (l₁ ++ l₂) = countTerminalSse l₁ + countTerminalSse l₂ := by
  induction l₁ with
  | nil => simp [countTerminalSse]
  | cons a t ih =>
      cases a with
      | writeEvent e => cases e <;> simp [countTerminalSse, ih] <;> omega
      | _ => simp [countTerminalSse, ih]

theorem countTerminalWs_append (l₁ l₂ : List WsOut) :
    countTerminalWs (l₁ ++ l₂) = countTerminalWs l₁ + countTerminalWs l₂ := by
  induction l₁ with
  | nil => simp [countTerminalWs]
  | cons a t ih =>
      cases a <;> simp [countTerminalWs, ih] <;> omega

theorem chunksOf_append (l₁ l₂ : List WsOut) :
    chunksOf (l₁ ++ l₂) = chunksOf l₁ ++ chunksOf l₂ := by
  induction l₁ with
  | nil => rfl
  | cons a t ih =>
      cases a <;> simp [chunksOf, ih]

theorem contentsOf_relay (fs : List String) :
    contentsOf (relayLoopActs fs) = fs.filter (fun s => s ≠ "") := by
  induction fs with
  | nil => rfl
  | cons c rest ih =>
      by_cases h : c = "" <;> simp [relayLoopActs, h, contentsOf, ih]

theorem countOpens_relay (fs : List String) : countOpens (relayLoopActs fs) = 0 := by
  induction fs with
  | nil => rfl
  | cons c rest ih =>
      by_cases h : c = "" <;> simp [relayLoopActs, h, countOpens, ih]

theorem countPulls_relay (fs : List String) : countPulls (relayLoopActs fs) = fs.length := by
  induction fs with
  | nil => rfl
  | cons c rest ih =>
      by_cases h : c = "" <;> simp [relayLoopActs, h, countPulls, ih]

theorem countContentSends_relay (fs : List String) :
    countContentSends (relayLoopActs fs) = (fs.filter (fun s => s ≠ "")).length := by
  induction fs with
  | nil => rfl
  | cons c rest ih =>
      by_cases h : c = "" <;> simp [relayLoopActs, h, countContentSends, ih]

theorem countTerminalSse_relay (fs : List String) :
    countTerminalSse (relayLoopActs fs) = 0 := by
  induction fs with
  | nil => rfl
  | cons c rest ih =>
      by_cases h : c = "" <;> simp [relayLoopActs, h, countTerminalSse, ih]

theorem countJsonReplies_relay (fs : List String) :
    countJsonReplies (relayLoopActs fs) = 0 := by
  induction fs with
  | nil => rfl
  | cons c rest ih =>
      by_cases h : c = "" <;> simp [relayLoopActs, h, countJsonReplies, ih]

theorem countErrorEvents_relay (fs : List String) :
    countErrorEvents (relayLoopActs fs) = 0 := by
  induction fs with
  | nil => rfl
  | cons c rest ih =>
      by_cases h : c = "" <;> simp [relayLoopActs, h, countErrorEvents, ih]

/-- Shape of the trace of a committed streaming session: the 200 header commit,
the generator acquisition, the relay of the fragments, the final pull, one
terminal event (DONE on normal completion, the in-band error event on a raise),
and the end of the stream. -/
theorem sseHandlerTrace_stream_eq (pg : Nat → Bool) (p : JwtPayload) (body : ChatBody)
    (gen : GenOutcome) (msgs : List ChatMsg)
    (hu : p.userId ≠ "") (hv : validateChatRequest body = Except.ok (msgs, true)) :
    sseHandlerTrace pg (some p) body gen
      = SseAction.openHead 200 :: SseAction.acquireGen p.userId msgs true ::
        (relayLoopActs (fragsOf gen) ++
          [SseAction.pull,
           SseAction.writeEvent (match gen with
             | .ok _ => SseEvent.done
             | .fail _ m _ => SseEvent.errorEvent m),
           SseAction.endStream]) := by
  cases gen <;> simp [sseHandlerTrace, hv, hu, fragsOf]

theorem chunksOf_map_chunk (l : List String) : chunksOf (l.map WsOut.chunk) = l := by
  induction l with
  | nil => rfl
  | cons s t ih => simp [chunksOf, ih]

theorem countTerminalWs_map_chunk (l : List String) :
    countTerminalWs (l.map WsOut.chunk) = 0 := by
  induction l with
  | nil => rfl
  | cons s t ih => simp [countTerminalWs, ih]

theorem string_join_cons (c : String) (t : List String) :
    String.join (c :: t) = c ++ String.join t := by
  apply String.ext
  simp [String.data_append]

theorem string_join_filter_ne_empty (l : List String) :
    String.join (l.filter (fun s => s ≠ "")) = String.join l := by
  induction l with
  | nil => rfl
  | cons c rest ih =>
      by_cases h : c = ""
      · subst h
        rw [List.filter_cons_of_neg (by simp), ih, string_join_cons,
          String.empty_append]
      · rw [List.filter_cons_of_pos (by simp [h]), string_join_cons, ih,
          string_join_cons]

/-- C1: for every streaming session on either transport, the send calls issued
to the sink, restricted to content payloads, equal the upstream generator's
fragment sequence with empty-text fragments removed, in the same order: every
non-empty fragment is relayed exactly once in production order and every
empty-text fragment is pulled but not relayed. -/
theorem relayed_contents_eq_nonempty_fragments
    (pg : Nat → Bool) (p : JwtPayload) (body : ChatBody) (gen : GenOutcome)
    (msgs : List ChatMsg) (u : String) (ms : List ChatMsg)
    (hu : p.userId ≠ "") (hv : validateChatRequest body = Except.ok (msgs, true)) :
    contentsOf (sseHandlerTrace pg (some p) body gen)
        = (fragsOf gen).filter (fun s => s ≠ "")
    ∧ chunksOf (wsHandleMessage u (WsInbound.parsed (some ms)) gen).sent
        = (fragsOf gen).filter (fun s => s ≠ "") := by
  constructor
  · cases gen with
    | ok fs =>
        rw [sseHandlerTrace_stream_eq pg p body (GenOutcome.ok fs) msgs hu hv]
        simp [contentsOf, contentsOf_append, contentsOf_relay, fragsOf]
    | fail fs m az =>
        rw [sseHandlerTrace_stream_eq pg p body (GenOutcome.fail fs m az) msgs hu hv]
        simp [contentsOf, contentsOf_append, contentsOf_relay, fragsOf]
  · cases gen with
    | ok fs =>
        simp [wsHandleMessage, fragsOf, chunksOf, chunksOf_append, chunksOf_map_chunk]
    | fail fs m az =>
        simp [wsHandleMessage, fragsOf, chunksOf, chunksOf_append, chunksOf_map_chunk]

/-- C1 witness: Scenario B — fragments Hi, empty, space-there give exactly the
two content sends Hi and space-there, on both transports. -/
theorem relayed_contents_witness :
    contentsOf (sseHandlerTrace (fun _ => false) (some { userId := "u1", email := "e" })
        { messages := some [{ role := Role.user, content := "hi" }], stream := some true }
        (GenOutcome.ok ["Hi", "", " there"])) = ["Hi", " there"]
    ∧ chunksOf (wsHandleMessage "u1"
        (WsInbound.parsed (some [{ role := Role.user, content := "hi" }]))
        (GenOutcome.ok ["Hi", "", " there"])).sent = ["Hi", " there"] := by
  have h := relayed_contents_eq_nonempty_fragments (fun _ => false)
      { userId := "u1", email := "e" }
      { messages := some [{ role := Role.user, content := "hi" }], stream := some true }
      (GenOutcome.ok ["Hi", "", " there"])
      [{ role := Role.user, content := "hi" }] "u1"
      [{ role := Role.user, content := "hi" }]
      (by decide) rfl
  exact ⟨h.1.trans (by rfl), h.2.trans (by rfl)⟩

/-- C2: on the push-stream entry point the header commit (sink.open) happens at
most once, and only when validation has succeeded; when an authenticated request
fails validation, no commit happens and the session's whole trace is exactly one
structured HTTP 400 JSON error reply. -/
theorem open_at_most_once_and_only_after_validation
    (pg : Nat → Bool) (user? : Option JwtPayload) (body : ChatBody) (gen : GenOutcome) :
    countOpens (sseHandlerTrace pg user? body gen) ≤ 1
    ∧ (countOpens (sseHandlerTrace pg user? body gen) = 1 →
        ∃ v, validateChatRequest body = Except.ok v)
    ∧ (∀ p m, user? = some p → p.userId ≠ "" →
        validateChatRequest body = Except.error m →
        sseHandlerTrace pg user? body gen
          = [SseAction.jsonReply 400 false ("Validation error: " ++ m)]) := by
  refine ⟨?_, ?_, ?_⟩
  · cases user? with
    | none => simp [sseHandlerTrace, countOpens]
    | some p =>
        by_cases hp : p.userId = ""
        · simp [sseHandlerTrace, hp, countOpens]
        · cases hvb : validateChatRequest body with
          | error m => simp [sseHandlerTrace, hp, hvb, countOpens]
          | ok v =>
              obtain ⟨ms, st⟩ := v
              cases st with
              | false => cases gen <;> simp [sseHandlerTrace, hp, hvb, countOpens]
              | true =>
                  cases gen <;>
                    simp [sseHandlerTrace, hp, hvb, countOpens, countOpens_append,
                      countOpens_relay]
  · intro hone
    cases user? with
    | none => simp [sseHandlerTrace, countOpens] at hone
    | some p =>
        by_cases hp : p.userId = ""
        · simp [sseHandlerTrace, hp, countOpens] at hone
        · cases hvb : validateChatRequest body with
          | error m => simp [sseHandlerTrace, hp, hvb, countOpens] at hone
          | ok v => exact ⟨v, hvb ▸ rfl⟩
  · intro p m hq hp hvb
    subst hq
    simp [sseHandlerTrace, hp, hvb]

/-- C2 witness: an authenticated request with no messages field fails validation,
never commits, and is answered by the single structured 400 reply. -/
theorem open_gate_witness :
    sseHandlerTrace (fun _ => false) (some { userId := "u1", email := "e" })
        { messages := none, stream := some true } (GenOutcome.ok [])
      = [SseAction.jsonReply 400 false ("Validation error: " ++ "messages: Required")] := by
  exact (open_at_most_once_and_only_after_validation (fun _ => false)
      (some { userId := "u1", email := "e" })
      { messages := none, stream := some true } (GenOutcome.ok [])).2.2
    { userId := "u1", email := "e" } "messages: Required" rfl (by decide) rfl

/-- C3 is refuted on the code: with the peer gone before every pull (peerGone
constantly true), a committed streaming session with a one-fragment generator
still performs two pulls — draining the generator to completion instead of
cancelling it — and still issues the content send, although the claim requires
no further sends and no further pulls once the peer is gone. -/
theorem peer_gone_still_sends_cex :
    countContentSends (sseHandlerTrace (fun _ => true)
        (some { userId := "u1", email := "e" })
        { messages := some [{ role := Role.user, content := "hi" }], stream := some true }
        (GenOutcome.ok ["Hi"])) = 1
    ∧ countPulls (sseHandlerTrace (fun _ => true)
        (some { userId := "u1", email := "e" })
        { messages := some [{ role := Role.user, content := "hi" }], stream := some true }
        (GenOutcome.ok ["Hi"])) = 2 := by
  exact ⟨rfl, rfl⟩

/-- C3 amended: the relay loop makes no peer-gone check at all — the handler's
trace is the same for every peer state, and a committed streaming session always
drains the generator to completion (one pull per fragment plus the final
completion pull) and sends every non-empty fragment, regardless of when or
whether the peer disconnects. -/
theorem relay_ignores_peer_state
    (pg pg' : Nat → Bool) (p : JwtPayload) (body : ChatBody) (gen : GenOutcome)
    (msgs : List ChatMsg)
    (hu : p.userId ≠ "") (hv : validateChatRequest body = Except.ok (msgs, true)) :
    sseHandlerTrace pg (some p) body gen = sseHandlerTrace pg' (some p) body gen
    ∧ countPulls (sseHandlerTrace pg (some p) body gen) = (fragsOf gen).length + 1
    ∧ countContentSends (sseHandlerTrace pg (some p) body gen)
        = ((fragsOf gen).filter (fun s => s ≠ "")).length := by
  refine ⟨rfl, ?_, ?_⟩
  · cases gen with
    | ok fs =>
        rw [sseHandlerTrace_stream_eq pg p body (GenOutcome.ok fs) msgs hu hv]
        simp [countPulls, countPulls_append, countPulls_relay, fragsOf]
    | fail fs m az =>
        rw [sseHandlerTrace_stream_eq pg p body (GenOutcome.fail fs m az) msgs hu hv]
        simp [countPulls, countPulls_append, countPulls_relay, fragsOf]
  · cases gen with
    | ok fs =>
        rw [sseHandlerTrace_stream_eq pg p body (GenOutcome.ok fs) msgs hu hv]
        simp [countContentSends, countContentSends_append, countContentSends_relay, fragsOf]
    | fail fs m az =>
        rw [sseHandlerTrace_stream_eq pg p body (GenOutcome.fail fs m az) msgs hu hv]
        simp [countContentSends, countContentSends_append, countContentSends_relay, fragsOf]

/-- C3 amended witness: a session whose peer is gone throughout behaves exactly
like one whose peer stays, draining a one-fragment generator with two pulls. -/
theorem relay_ignores_peer_state_witness :
    sseHandlerTrace (fun _ => true) (some { userId := "u1", email := "e" })
        { messages := some [{ role := Role.user, content := "hi" }], stream := some true }
        (GenOutcome.ok ["Hi"])
      = sseHandlerTrace (fun _ => false) (some { userId := "u1", email := "e" })
        { messages := some [{ role := Role.user, content := "hi" }], stream := some true }
        (GenOutcome.ok ["Hi"])
    ∧ countPulls (sseHandlerTrace (fun _ => true) (some { userId := "u1", email := "e" })
        { messages := some [{ role := Role.user, content := "hi" }], stream := some true }
        (GenOutcome.ok ["Hi"])) = 2 := by
  have h := relay_ignores_peer_state (fun _ => true) (fun _ => false)
      { userId := "u1", email := "e" }
      { messages := some [{ role := Role.user, content := "hi" }], stream := some true }
      (GenOutcome.ok ["Hi"]) [{ role := Role.user, content := "hi" }]
      (by decide) rfl
  exact ⟨h.1, h.2.1⟩

/-- C4: exactly one terminal event per session that reaches the transport: on
the push stream, whenever the header commit happened, exactly one DONE sentinel
or in-band error event is written — never zero, never two — on normal
completion and mid-stream failure alike; on the socket, every handled inbound
message is answered with exactly one done or error frame. -/
theorem exactly_one_terminal_event
    (pg : Nat → Bool) (user? : Option JwtPayload) (body : ChatBody) (gen : GenOutcome)
    (u : String) (inbound : WsInbound) (gen' : GenOutcome) :
    (countOpens (sseHandlerTrace pg user? body gen) = 1 →
        countTerminalSse (sseHandlerTrace pg user? body gen) = 1)
    ∧ countTerminalWs (wsHandleMessage u inbound gen').sent = 1 := by
  constructor
  · intro hopen
    cases user? with
    | none => simp [sseHandlerTrace, countOpens] at hopen
    | some p =>
        by_cases hp : p.userId = ""
        · simp [sseHandlerTrace, hp, countOpens] at hopen
        · cases hvb : validateChatRequest body with
          | error m => simp [sseHandlerTrace, hp, hvb, countOpens] at hopen
          | ok v =>
              obtain ⟨ms, st⟩ := v
              cases st with
              | false => cases gen <;> simp [sseHandlerTrace, hp, hvb, countOpens] at hopen
              | true =>
                  cases gen with
                  | ok fs =>
                      rw [sseHandlerTrace_stream_eq pg p body (GenOutcome.ok fs) ms hp hvb]
                      simp [countTerminalSse, countTerminalSse_append, countTerminalSse_relay,
                        fragsOf]
                  | fail fs m az =>
                      rw [sseHandlerTrace_stream_eq pg p body (GenOutcome.fail fs m az) ms hp hvb]
                      simp [countTerminalSse, countTerminalSse_append, countTerminalSse_relay,
                        fragsOf]
  · cases inbound with
    | malformed m => simp [wsHandleMessage, countTerminalWs]
    | parsed ms? =>
        cases ms? with
        | none => simp [wsHandleMessage, countTerminalWs]
        | some ms =>
            cases gen' <;>
              simp [wsHandleMessage, countTerminalWs, countTerminalWs_append,
                countTerminalWs_map_chunk]

/-- C4 witness: a committed streaming session that completes normally writes
exactly one terminal event. -/
theorem exactly_one_terminal_witness :
    countTerminalSse (sseHandlerTrace (fun _ => false)
        (some { userId := "u1", email := "e" })
        { messages := some [{ role := Role.user, content := "hi" }], stream := some true }
        (GenOutcome.ok ["Hi"])) = 1 := by
  exact (exactly_one_terminal_event (fun _ => false)
      (some { userId := "u1", email := "e" })
      { messages := some [{ role := Role.user, content := "hi" }], stream := some true }
      (GenOutcome.ok ["Hi"]) "u1" (WsInbound.parsed none) (GenOutcome.ok [])).1 rfl

/-- C5: when the upstream stream raises after the response is committed, the
trace is the committed 200 header, the already-relayed fragments, then exactly
one in-band error event immediately followed by the end of the stream; no
out-of-band reply and no second header commit occur, so the already-sent
top-level status is never changed. -/
theorem midstream_failure_one_inband_error
    (pg : Nat → Bool) (p : JwtPayload) (body : ChatBody) (msgs : List ChatMsg)
    (frags : List String) (msg : String) (az : Bool)
    (hu : p.userId ≠ "") (hv : validateChatRequest body = Except.ok (msgs, true)) :
    sseHandlerTrace pg (some p) body (GenOutcome.fail frags msg az)
      = SseAction.openHead 200 :: SseAction.acquireGen p.userId msgs true ::
        (relayLoopActs frags ++
          [SseAction.pull, SseAction.writeEvent (SseEvent.errorEvent msg),
           SseAction.endStream])
    ∧ countErrorEvents (sseHandlerTrace pg (some p) body (GenOutcome.fail frags msg az)) = 1
    ∧ countJsonReplies (sseHandlerTrace pg (some p) body (GenOutcome.fail frags msg az)) = 0
    ∧ countOpens (sseHandlerTrace pg (some p) body (GenOutcome.fail frags msg az)) = 1 := by
  have hsh := sseHandlerTrace_stream_eq pg p body (GenOutcome.fail frags msg az) msgs hu hv
  refine ⟨by simpa [fragsOf] using hsh, ?_, ?_, ?_⟩ <;> rw [hsh] <;>
    simp [countErrorEvents, countErrorEvents_append, countErrorEvents_relay,
      countJsonReplies, countJsonReplies_append, countJsonReplies_relay,
      countOpens, countOpens_append, countOpens_relay, fragsOf]

/-- C5 witness: Scenario E — a failure after two sent fragments yields those two
content events, then one in-band error event, then the end of the stream. -/
theorem midstream_failure_witness :
    sseHandlerTrace (fun _ => false) (some { userId := "u1", email := "e" })
        { messages := some [{ role := Role.user, content := "hi" }], stream := some true }
        (GenOutcome.fail ["a", "b"] "boom" false)
      = SseAction.openHead 200 ::
        SseAction.acquireGen "u1" [{ role := Role.user, content := "hi" }] true ::
        (relayLoopActs ["a", "b"] ++
          [SseAction.pull, SseAction.writeEvent (SseEvent.errorEvent "boom"),
           SseAction.endStream]) := by
  exact (midstream_failure_one_inband_error (fun _ => false)
      { userId := "u1", email := "e" }
      { messages := some [{ role := Role.user, content := "hi" }], stream := some true }
      [{ role := Role.user, content := "hi" }] ["a", "b"] "boom" false
      (by decide) rfl).1

/-- C6: with streaming disabled, a valid request is answered by one structured
success response whose text is the concatenation, in order, of the generator's
fragments — which equals the concatenation of its non-empty fragments, since
an empty fragment contributes nothing. -/
theorem nonstreaming_text_is_concat
    (pg : Nat → Bool) (p : JwtPayload) (body : ChatBody) (msgs : List ChatMsg)
    (frags : List String)
    (hu : p.userId ≠ "") (hv : validateChatRequest body = Except.ok (msgs, false)) :
    sseHandlerTrace pg (some p) body (GenOutcome.ok frags)
      = [SseAction.acquireGen p.userId msgs false,
         SseAction.jsonReply 200 true (nonStreamText frags)]
    ∧ nonStreamText frags = String.join (frags.filter (fun s => s ≠ "")) := by
  constructor
  · simp [sseHandlerTrace, hu, hv]
  · exact (string_join_filter_ne_empty frags).symm

/-- C6 witness: Scenario A — generator fragments Hel and lo give the single
structured response text Hello. -/
theorem nonstreaming_hello_witness :
    sseHandlerTrace (fun _ => false) (some { userId := "u1", email := "e" })
        { messages := some [{ role := Role.user, content := "hi" }], stream := some false }
        (GenOutcome.ok ["Hel", "lo"])
      = [SseAction.acquireGen "u1" [{ role := Role.user, content := "hi" }] false,
         SseAction.jsonReply 200 true "Hello"] := by
  have h := nonstreaming_text_is_concat (fun _ => false) { userId := "u1", email := "e" }
      { messages := some [{ role := Role.user, content := "hi" }], stream := some false }
      [{ role := Role.user, content := "hi" }] ["Hel", "lo"] (by decide) rfl
  exact h.1.trans (by rfl)

/-- C7 is refuted on the socket entry point: an inbound message whose messages
field is the empty list passes the line-149 truthiness check — an empty array
is a truthy JS value — and IS forwarded to the upstream generator. -/
theorem ws_empty_messages_forwarded_cex :
    (wsHandleMessage "u1" (WsInbound.parsed (some [])) (GenOutcome.ok [])).genCall
      = some ("u1", []) := rfl

/-- C7 amended: the two entry points differ. On the push-stream entry point an
empty messages list fails validation pre-commit: the trace is exactly one
structured HTTP 400 JSON error, with no header commit and no generator
acquisition. On the socket entry point only an absent or otherwise falsy
messages field is rejected; any present list — the empty list included — is
forwarded to the generator. -/
theorem empty_messages_validation_split
    (pg : Nat → Bool) (p : JwtPayload) (st : Option Bool) (gen : GenOutcome)
    (u : String) (ms : List ChatMsg) (gen' : GenOutcome)
    (hu : p.userId ≠ "") :
    sseHandlerTrace pg (some p) { messages := some [], stream := st } gen
      = [SseAction.jsonReply 400 false ("Validation error: " ++ "messages: empty")]
    ∧ (wsHandleMessage u (WsInbound.parsed (some ms)) gen').genCall = some (u, ms)
    ∧ (wsHandleMessage u (WsInbound.parsed none) gen').genCall = none := by
  refine ⟨?_, ?_, ?_⟩
  · simp [sseHandlerTrace, hu, validateChatRequest]
  · cases gen' <;> rfl
  · rfl

/-- C7 amended witness: the concrete split at an empty message list. -/
theorem empty_messages_split_witness :
    sseHandlerTrace (fun _ => false) (some { userId := "u1", email := "e" })
        { messages := some [], stream := some true } (GenOutcome.ok [])
      = [SseAction.jsonReply 400 false ("Validation error: " ++ "messages: empty")]
    ∧ (wsHandleMessage "u1" (WsInbound.parsed (some []))
        (GenOutcome.ok ["x"])).genCall = some ("u1", []) := by
  have h := empty_messages_validation_split (fun _ => false)
      { userId := "u1", email := "e" } (some true) (GenOutcome.ok [])
      "u1" ([] : List ChatMsg) (GenOutcome.ok ["x"]) (by decide)
  exact ⟨h.1, h.2.1⟩

/-- C8: a WebSocket connection with no valid credential — token missing, token
rejected by the verifier, or token payload lacking a userId — is closed with
policy-violation code 1008 before any message exchange: its whole action list is
that single close, and no generator is ever acquired, whatever the inbound
traffic would have been. -/
theorem ws_invalid_credential_closed_1008
    (verify : String → Option JwtPayload) (token? : Option String)
    (inbound : WsInbound) (gen : GenOutcome)
    (h : token? = none
        ∨ ∃ t, token? = some t ∧
            (verify t = none ∨ ∃ p, verify t = some p ∧ p.userId = "")) :
    ∃ r, wsConnection verify token? inbound gen = ([WsAction.closeConn 1008 r], none) := by
  rcases h with h | ⟨t, ht, h⟩
  · subst h
    exact ⟨"Missing authentication token", rfl⟩
  · subst ht
    rcases h with h | ⟨p, hp, hpu⟩
    · exact ⟨"Invalid or expired token", by simp [wsConnection, wsEstablishConn, h]⟩
    · exact ⟨"Invalid token payload", by simp [wsConnection, wsEstablishConn, hp, hpu]⟩

/-- C8 witness: a connection whose token every verifier rejects is closed with
1008 and acquires no generator. -/
theorem ws_invalid_credential_witness :
    ∃ r, wsConnection (fun _ => none) (some "bad")
        (WsInbound.parsed (some [])) (GenOutcome.ok ["x"])
      = ([WsAction.closeConn 1008 r], none) := by
  exact ws_invalid_credential_closed_1008 (fun _ => none) (some "bad")
    (WsInbound.parsed (some [])) (GenOutcome.ok ["x"])
    (Or.inr ⟨"bad", rfl, Or.inl rfl⟩)

/-- C9: credential verification is identical at both entry points: for every
verifier and every credential string, the push-stream pipeline (credential from
the Authorization header, checked by the authenticate preHandler and the
handler's own userId check) and the socket establishment (credential from the
connection query string) accept exactly the same credentials. -/
theorem auth_check_same_both_entrypoints
    (verify : String → Option JwtPayload) (cred : String) :
    sseAuthAccepts verify cred = wsAuthAccepts verify cred := by
  cases hv : verify cred with
  | none => simp [sseAuthAccepts, wsAuthAccepts, authenticatePre, wsEstablishConn, hv]
  | some p =>
      by_cases hp : p.userId = "" <;>
        simp [sseAuthAccepts, wsAuthAccepts, authenticatePre, wsEstablishConn, hv, hp]

theorem wsConnection_genCall_userId (verify : String → Option JwtPayload)
    (token? : Option String) (m : WsInbound) (g : GenOutcome)
    (c : String × List ChatMsg)
    (h : (wsConnection verify token? m g).2 = some c) :
    ∃ t p, token? = some t ∧ verify t = some p ∧ p.userId ≠ "" ∧ c.1 = p.userId := by
  cases token? with
  | none => simp [wsConnection, wsEstablishConn] at h
  | some t =>
      cases hv : verify t with
      | none => simp [wsConnection, wsEstablishConn, hv] at h
      | some p =>
          by_cases hp : p.userId = ""
          · simp [wsConnection, wsEstablishConn, hv, hp] at h
          · refine ⟨t, p, rfl, hv, hp, ?_⟩
            cases m with
            | malformed e =>
                simp [wsConnection, wsEstablishConn, hv, hp, wsHandleMessage] at h
            | parsed ms? =>
                cases ms? with
                | none =>
                    simp [wsConnection, wsEstablishConn, hv, hp, wsHandleMessage] at h
                | some ms =>
                    cases g with
                    | ok fs =>
                        simp [wsConnection, wsEstablishConn, hv, hp, wsHandleMessage] at h
                        simp [← h]
                    | fail fs msg az =>
                        simp [wsConnection, wsEstablishConn, hv, hp, wsHandleMessage] at h
                        simp [← h]

/-- C10: the userId the WebSocket path passes to the generator is a function of
the token verified at establishment only: whenever two deliveries over
connections established with the same verifier and token both lead to generator
invocations, the invocations carry the same userId — the one decoded from the
token — no matter what the two inbound message payloads contain. -/
theorem ws_userid_from_token_only
    (verify : String → Option JwtPayload) (token? : Option String)
    (m₁ m₂ : WsInbound) (g₁ g₂ : GenOutcome)
    (c₁ c₂ : String × List ChatMsg)
    (h₁ : (wsConnection verify token? m₁ g₁).2 = some c₁)
    (h₂ : (wsConnection verify token? m₂ g₂).2 = some c₂) :
    c₁.1 = c₂.1
    ∧ ∃ t p, token? = some t ∧ verify t = some p ∧ c₁.1 = p.userId := by
  obtain ⟨t, p, ht, hv, hpu, hc₁⟩ := wsConnection_genCall_userId verify token? m₁ g₁ c₁ h₁
  obtain ⟨t', p', ht', hv', hpu', hc₂⟩ := wsConnection_genCall_userId verify token? m₂ g₂ c₂ h₂
  have htt : t = t' := by rw [ht] at ht'; exact (Option.some.injEq _ _).mp ht'.symm |>.symm
  subst htt
  have hpp : p = p' := by rw [hv] at hv'; exact (Option.some.injEq _ _).mp hv'.symm |>.symm
  subst hpp
  exact ⟨hc₁.trans hc₂.symm, t, p, ht, hv, hc₁⟩

/-- C10 witness: two connections on the same token, one delivering an empty
message list and one a real message, both invoke the generator as the token's
user. -/
theorem ws_userid_witness :
    ((wsConnection (fun _ => some { userId := "u1", email := "e" }) (some "tok")
        (WsInbound.parsed (some [])) (GenOutcome.ok [])).2.map Prod.fst
      = some "u1") := by
  have h := ws_userid_from_token_only
      (fun _ => some { userId := "u1", email := "e" }) (some "tok")
      (WsInbound.parsed (some []))
      (WsInbound.parsed (some [{ role := Role.user, content := "zzz" }]))
      (GenOutcome.ok []) (GenOutcome.ok ["x"])
      ("u1", []) ("u1", [{ role := Role.user, content := "zzz" }])
      rfl rfl
  obtain ⟨-, t, p, -, hvp, hc⟩ := h
  simp [wsConnection, wsEstablishConn, wsHandleMessage]

end Gateway
